import Mathlib

/-!
Shallow embedding of the `filetime` crate (timestamp abstraction layer).

The repository contains two generations of the implementation:
* `src/lib.rs` — the legacy monolithic revision, whose `FileTime` stores
  `seconds : u64`, `nanos : u32`, together with inline per-OS `imp` modules;
* the per-OS modules `src/windows.rs`, `src/redox.rs`, `src/unix/mod.rs`,
  `src/unix/utimes.rs`, `src/unix/linux.rs` — the later revision, whose
  `FileTime` stores `seconds : i64`, `nanos : u32` and whose write entry
  points take `Option<FileTime>` arguments.

Machine integers are modelled as `Nat`/`Int` with explicit wrapping
(`% 2^w`) at the points where Rust release-mode arithmetic would wrap.
Syscalls and the OS are modelled as oracles: each write adapter takes an
environment recording what every syscall it might issue would return, and
returns both its `io::Result`-style outcome and the trace of native calls
it actually issued, so that "no syscall was issued" and "the close happened
even on error" are provable statements.
-/

/-- Truncating cast of an `i64` value to `u32` (Rust `as u32`): the low 32
bits of the two's-complement representation. -/
def u32ofI64 (x : Int) : Nat := (x % 4294967296).toNat

/-- Cast of a `u64` value (a `Nat` below `2^64`) to `i64` (Rust `as i64`):
reinterpretation of the 64-bit pattern as two's complement. -/
def i64ofU64 (n : Nat) : Int :=
  if n < 9223372036854775808 then (n : Int) else (n : Int) - 18446744073709551616

/-- Truncating cast of a `u64` value to `u32` (Rust `as u32`). -/
def u32ofU64 (n : Nat) : Nat := n % 4294967296

/-- Wrapping cast of an `i64` value to `i32` (Rust `as i32`): low 32 bits,
reinterpreted as two's complement. -/
def i32ofI64 (x : Int) : Int :=
  if x % 4294967296 < 2147483648 then x % 4294967296 else x % 4294967296 - 4294967296

/-- The `u64` pattern (two's complement) of an `i64` value, used to model
`as u32` on the low word and `(x >> 32) as u32` on the high word. -/
def u64PatternOfI64 (x : Int) : Nat := (x % 18446744073709551616).toNat

/-- Wrapping `i64` arithmetic (Rust release-mode overflow semantics): reduce
an unbounded integer into `[-2^63, 2^63)`. -/
def wrapI64 (x : Int) : Int :=
  (x + 9223372036854775808) % 18446744073709551616 - 9223372036854775808

/-- Outcome of a Rust function returning `io::Result<()>`, with a separate
constructor for a panic (`unimplemented!` / `Option::unwrap` on `None`),
which aborts the caller rather than returning a value. -/
inductive Outcome (ε : Type) where
  | ok : Outcome ε
  | error (e : ε) : Outcome ε
  | panicked (msg : String) : Outcome ε
deriving DecidableEq

/-- Whether the outcome is a returned error value (`Err(_)`). A panic is not
a returned error. -/
def Outcome.isError {ε : Type} : Outcome ε → Bool
  | .error _ => true
  | _ => false

/-- Whether the outcome is a panic. -/
def Outcome.isPanic {ε : Type} : Outcome ε → Bool
  | .panicked _ => true
  | _ => false

/-- A Rust `std::io::Error` as observed by this crate: either a raw OS error
code (errno), or a constructed error without one (`io::Error::new`, and the
`NulError` produced by `CString::new`). -/
inductive IOErr where
  | os (errno : Nat) : IOErr
  | notFound (msg : String) : IOErr
  | invalidInput : IOErr
deriving DecidableEq

/-- Rust `io::Error::raw_os_error()`. -/
def IOErr.rawOsError : IOErr → Option Nat
  | .os e => some e
  | _ => none

namespace Lib

/-- The legacy `FileTime` of `src/lib.rs`: `seconds : u64`, `nanos : u32`
(modelled as `Nat` values; the constructors below wrap at `2^64` exactly
where the Rust `u64` arithmetic does). -/
structure FileTime where
  seconds : Nat
  nanos : Nat
deriving DecidableEq

/-- Modulus of `u64` arithmetic. -/
def U64MOD : Nat := 18446744073709551616

/-- The fixed epoch offset between 1601-01-01 (Windows) and 1970-01-01
(Unix), in seconds, as written in `src/lib.rs`. -/
def WINDOWS_EPOCH_OFFSET : Nat := 11644473600

/-- The `cfg!(windows)`-selected epoch offset of `src/lib.rs` lines 80 and
191: `11644473600` on Windows targets and `0` elsewhere. -/
def epochOffset (windows : Bool) : Nat :=
  if windows then WINDOWS_EPOCH_OFFSET else 0

/-- `FileTime::zero` (`src/lib.rs` lines 67-69). -/
def FileTime.zero : FileTime := { seconds := 0, nanos := 0 }

/-- `FileTime::from_seconds_since_1970` (`src/lib.rs` lines 78-83): stores
`seconds + (windows ? 11644473600 : 0)` (u64 addition, wrapping in release
mode) and stores `nanos` unchanged — the constructor performs no
normalization of `nanos`. -/
def from_seconds_since_1970 (windows : Bool) (seconds : Nat) (nanos : Nat) : FileTime :=
  { seconds := (seconds + epochOffset windows) % U64MOD, nanos := nanos }

/-- `FileTime::seconds` (`src/lib.rs` line 183). -/
def FileTime.secondsFn (ft : FileTime) : Nat := ft.seconds

/-- `FileTime::seconds_relative_to_1970` (`src/lib.rs` lines 190-192):
`self.seconds - (windows ? 11644473600 : 0)`, u64 subtraction (wrapping in
release mode). -/
def seconds_relative_to_1970 (windows : Bool) (ft : FileTime) : Nat :=
  (ft.seconds + (U64MOD - epochOffset windows)) % U64MOD

/-- `FileTime::nanoseconds` (`src/lib.rs` line 199). -/
def FileTime.nanoseconds (ft : FileTime) : Nat := ft.nanos

/-- The Windows `FileTime::from_os_repr` (`src/lib.rs` lines 164-171):
`time` is a count of 100ns intervals since 1601; seconds are
`time / 10_000_000` and nanos `(time % 10_000_000) * 100` (cast `as u32`,
always below `10^9` so the cast truncates nothing, modelled faithfully). -/
def from_os_repr_windows (time : Nat) : FileTime :=
  { seconds := time / (1000000000 / 100)
    nanos := u32ofU64 ((time % (1000000000 / 100)) * 100) }

/-- The Unix/Redox `FileTime::from_os_repr` (`src/lib.rs` lines 174-176). -/
def from_os_repr_unix (seconds : Nat) (nanos : Nat) : FileTime :=
  { seconds := seconds, nanos := nanos }

/-- A Windows `fs::Metadata` snapshot as read by `src/lib.rs`: the three
`u64` tick counters (100ns intervals since 1601) exposed by
`std::os::windows::fs::MetadataExt`. -/
structure WinMeta where
  creation_time : Nat
  last_access_time : Nat
  last_write_time : Nat
deriving DecidableEq

/-- The Windows branch of `FileTime::from_creation_time`
(`src/lib.rs` lines 156-159): it reads `meta.last_access_time()` — the
access-time field — not the creation-time field. -/
def from_creation_time_windows (meta : WinMeta) : Option FileTime :=
  some (from_os_repr_windows meta.last_access_time)

/-- The fallback branch of `FileTime::from_creation_time` generated by the
`birthtim!` macro (`src/lib.rs` lines 140-144) for non-Windows targets other
than bitrig/freebsd/ios/macos/openbsd: always `None`. -/
def from_creation_time_other (_meta : Unit) : Option FileTime :=
  none

/-- Rust `Ord::cmp` on `u64` (used by the derived `Ord` of `FileTime`). -/
def cmpNat (a b : Nat) : Ordering :=
  if a < b then .lt else if a = b then .eq else .gt

/-- The derived `Ord::cmp` of the legacy `FileTime` (`src/lib.rs` line 57):
fields compared in declaration order, `seconds` first, then `nanos`. -/
def FileTime.cmp (a b : FileTime) : Ordering :=
  match cmpNat a.seconds b.seconds with
  | .eq => cmpNat a.nanos b.nanos
  | o => o

/-- The derived strict `<` of the legacy `FileTime`. -/
def FileTime.lt (a b : FileTime) : Prop := FileTime.cmp a b = .lt

/-- The `to_timeval` of the utimes-based inline `imp` module
(`src/lib.rs` lines 282-287): `tv_sec` is `seconds as time_t` (u64 → i64)
and `tv_usec` is `nanoseconds() / 1000` cast to `suseconds_t` (lossless:
the quotient of a `u32` by 1000 fits). -/
def to_timeval (ft : FileTime) : Int × Int :=
  (i64ofU64 ft.seconds, (Int.ofNat (ft.nanoseconds / 1000)))

end Lib

/-- The later-revision `FileTime` shared by `src/windows.rs`, `src/redox.rs`
and `src/unix/*`: `seconds : i64`, `nanos : u32`. -/
structure FileTime where
  seconds : Int
  nanos : Nat
deriving DecidableEq

/-- `FileTime::seconds` accessor of the later revision. -/
def FileTime.secondsFn (ft : FileTime) : Int := ft.seconds

/-- `FileTime::nanoseconds` accessor of the later revision. -/
def FileTime.nanoseconds (ft : FileTime) : Nat := ft.nanos

namespace Windows

/-- A Windows `fs::Metadata` snapshot as read by `src/windows.rs`: the three
`u64` tick counters (100ns intervals since 1601). -/
structure WinMeta where
  creation_time : Nat
  last_access_time : Nat
  last_write_time : Nat
deriving DecidableEq

/-- `from_intervals` (`src/windows.rs` lines 96-103): seconds are
`(ticks / 10_000_000) as i64` and nanos `((ticks % 10_000_000) * 100) as u32`. -/
def from_intervals (ticks : Nat) : FileTime :=
  { seconds := i64ofU64 (ticks / (1000000000 / 100))
    nanos := u32ofU64 ((ticks % (1000000000 / 100)) * 100) }

/-- `from_last_modification_time` (`src/windows.rs` lines 84-86). -/
def from_last_modification_time (meta : WinMeta) : FileTime :=
  from_intervals meta.last_write_time

/-- `from_last_access_time` (`src/windows.rs` lines 88-90). -/
def from_last_access_time (meta : WinMeta) : FileTime :=
  from_intervals meta.last_access_time

/-- `from_creation_time` (`src/windows.rs` lines 92-94): reads
`meta.creation_time()`, the native creation-time field, and is always
`Some`. -/
def from_creation_time (meta : WinMeta) : Option FileTime :=
  some (from_intervals meta.creation_time)

/-- The native `FILETIME` pair of 32-bit words (`src/windows.rs` lines
49-53). -/
structure FILETIME where
  dwLowDateTime : Nat
  dwHighDateTime : Nat
deriving DecidableEq

/-- `to_filetime` (`src/windows.rs` lines 75-81): `intervals` is computed in
`i64` arithmetic (wrapping in release mode); `dwLowDateTime` is
`intervals as u32` and `dwHighDateTime` is `(intervals >> 32) as u32`,
i.e. the low and high 32-bit words of the two's-complement pattern. -/
def to_filetime (ft : FileTime) : FILETIME :=
  let intervals : Int :=
    wrapI64 (wrapI64 (ft.secondsFn * (1000000000 / 100)) + (Int.ofNat ft.nanoseconds) / 100)
  { dwLowDateTime := u64PatternOfI64 intervals % 4294967296
    dwHighDateTime := u64PatternOfI64 intervals / 4294967296 }

/-- A native call issued by the Windows write adapter. -/
inductive WinCall where
  | openFile (write : Bool) (customFlags : Nat) : WinCall
  | setFileTime (creation accessTime writeTime : Option FILETIME) : WinCall
deriving DecidableEq

/-- Oracle for the Windows write adapter: what the open would produce and
what `SetFileTime` would return (`BOOL`, nonzero meaning success), together
with the `GetLastError`-derived code `io::Error::last_os_error()` would
report. -/
structure WinEnv where
  openRes : Except Nat Unit
  setFileTimeRet : Int
  lastOsError : Nat

/-- `FILE_FLAG_OPEN_REPARSE_POINT` (`src/windows.rs` line 31). -/
def FILE_FLAG_OPEN_REPARSE_POINT : Nat := 2097152

/-- `set_file_times_w` (`src/windows.rs` lines 40-73), given an already
opened handle: maps each present timestamp through `to_filetime`, passes an
absent one as null, and returns `Ok` iff `SetFileTime` returned nonzero. -/
def set_file_times_w (env : WinEnv) (atime mtime : Option FileTime) :
    Outcome Nat × List WinCall :=
  let a := atime.map to_filetime
  let m := mtime.map to_filetime
  let call := WinCall.setFileTime none a m
  if env.setFileTimeRet ≠ 0 then (.ok, [call]) else (.error env.lastOsError, [call])

/-- `set_file_times` (`src/windows.rs` lines 10-13): opens with write access
and no custom flags, then delegates to `set_file_times_w`. -/
def set_file_times (env : WinEnv) (atime mtime : Option FileTime) :
    Outcome Nat × List WinCall :=
  match env.openRes with
  | .error e => (.error e, [.openFile true 0])
  | .ok _ =>
    let (r, t) := set_file_times_w env atime mtime
    (r, .openFile true 0 :: t)

/-- `set_symlink_file_times` (`src/windows.rs` lines 23-38): first matches
on the pair of options — `(Some, Some)` proceeds, `(None, None)` returns
`Ok(())` immediately, and a single-sided request hits
`unimplemented!("Must set both atime and mtime on Windows")`, a panic —
then opens with `FILE_FLAG_OPEN_REPARSE_POINT` and delegates. -/
def set_symlink_file_times (env : WinEnv) (atime mtime : Option FileTime) :
    Outcome Nat × List WinCall :=
  match atime, mtime with
  | some a, some m =>
    match env.openRes with
    | .error e => (.error e, [.openFile true FILE_FLAG_OPEN_REPARSE_POINT])
    | .ok _ =>
      let (r, t) := set_file_times_w env (some a) (some m)
      (r, .openFile true FILE_FLAG_OPEN_REPARSE_POINT :: t)
  | none, none => (.ok, [])
  | _, _ => (.panicked "Must set both atime and mtime on Windows", [])

end Windows

namespace Redox

/-- The Redox `TimeSpec` (`src/redox.rs` lines 37-42): `tv_sec : i64` taken
directly from `seconds()`, `tv_nsec : i32` from `nanoseconds() as i32`
(wrapping cast). -/
structure TimeSpec where
  tv_sec : Int
  tv_nsec : Int
deriving DecidableEq

/-- `to_timespec` (`src/redox.rs` lines 37-42). -/
def to_timespec (ft : FileTime) : TimeSpec :=
  { tv_sec := ft.secondsFn, tv_nsec := i32ofI64 (Int.ofNat ft.nanoseconds) }

/-- A native Redox syscall issued by the write adapter. -/
inductive RedoxCall where
  | openCall (flags : Nat) : RedoxCall
  | futimens (fd : Nat) (times : List TimeSpec) : RedoxCall
  | closeCall (fd : Nat) : RedoxCall
deriving DecidableEq

/-- Oracle for the Redox write adapter: the result each raw syscall would
produce (`Err errno` or `Ok value`). -/
structure RedoxEnv where
  openRes : Except Nat Nat
  futimensRes : Except Nat Nat
  closeRes : Except Nat Nat

/-- Redox `O_NOFOLLOW` (`syscall::O_NOFOLLOW`). -/
def O_NOFOLLOW : Nat := 2147483648

/-- `set_file_times_redox` (`src/redox.rs` lines 34-51): builds the timespec
pair, issues `futimens` on the descriptor, then issues `close` with its
result discarded (`let _ = syscall::close(fd)`), and finally returns `Ok`
or the `futimens` error — the close result is never consulted. -/
def set_file_times_redox (env : RedoxEnv) (fd : Nat) (atime mtime : FileTime) :
    Outcome Nat × List RedoxCall :=
  let times := [to_timespec atime, to_timespec mtime]
  let res := env.futimensRes
  let trace := [RedoxCall.futimens fd times, RedoxCall.closeCall fd]
  match res with
  | .ok _ => (.ok, trace)
  | .error errno => (.error errno, trace)

/-- `set_file_times` (`src/redox.rs` lines 10-20): matches on the option
pair — `(Some, Some)` proceeds, `(None, None)` returns `Ok(())` before any
syscall, a single-sided request hits
`unimplemented!("Must set both atime and mtime on Redox")`, a panic — then
opens the path with flags 0 and delegates. -/
def set_file_times (env : RedoxEnv) (atime mtime : Option FileTime) :
    Outcome Nat × List RedoxCall :=
  match atime, mtime with
  | some a, some m =>
    match env.openRes with
    | .error errno => (.error errno, [.openCall 0])
    | .ok fd =>
      let (r, t) := set_file_times_redox env fd a m
      (r, .openCall 0 :: t)
  | none, none => (.ok, [])
  | _, _ => (.panicked "Must set both atime and mtime on Redox", [])

/-- `set_symlink_file_times` (`src/redox.rs` lines 22-32): identical to
`set_file_times` except that the open uses `O_NOFOLLOW`. -/
def set_symlink_file_times (env : RedoxEnv) (atime mtime : Option FileTime) :
    Outcome Nat × List RedoxCall :=
  match atime, mtime with
  | some a, some m =>
    match env.openRes with
    | .error errno => (.error errno, [.openCall O_NOFOLLOW])
    | .ok fd =>
      let (r, t) := set_file_times_redox env fd a m
      (r, .openCall O_NOFOLLOW :: t)
  | none, none => (.ok, [])
  | _, _ => (.panicked "Must set both atime and mtime on Redox", [])

/-- `from_creation_time` (`src/redox.rs` lines 67-69): always `None`. -/
def from_creation_time (_meta : Unit) : Option FileTime :=
  none

end Redox

/-- A Unix `fs::Metadata` snapshot as read through
`std::os::unix::fs::MetadataExt`: `atime`/`mtime` seconds are `i64` and the
nanosecond parts are `i64` as well. -/
structure UnixMeta where
  atime : Int
  atime_nsec : Int
  mtime : Int
  mtime_nsec : Int
deriving DecidableEq

/-- The C `timeval` as built by this crate: `tv_sec : time_t` (i64),
`tv_usec : suseconds_t` (i64). -/
structure Timeval where
  tv_sec : Int
  tv_usec : Int
deriving DecidableEq

namespace UnixMod

/-- `from_last_modification_time` (`src/unix/mod.rs` lines 133-138):
`seconds` directly from `meta.mtime()`, `nanos` from
`meta.mtime_nsec() as u32`. -/
def from_last_modification_time (meta : UnixMeta) : FileTime :=
  { seconds := meta.mtime, nanos := u32ofI64 meta.mtime_nsec }

/-- `from_last_access_time` (`src/unix/mod.rs` lines 140-145). -/
def from_last_access_time (meta : UnixMeta) : FileTime :=
  { seconds := meta.atime, nanos := u32ofI64 meta.atime_nsec }

/-- The branch of `from_creation_time` (`src/unix/mod.rs` lines 162-165)
generated for targets other than bitrig/freebsd/ios/macos/openbsd: always
`None`. -/
def from_creation_time_other (_meta : UnixMeta) : Option FileTime :=
  none

/-- The `to_timeval` nested in `call_s_helper` (`src/unix/mod.rs` lines
45-50): `tv_sec` is `seconds() as time_t` and `tv_usec` is
`(nanoseconds() / 1000) as suseconds_t` — truncating integer division. -/
def to_timeval (ft : FileTime) : Timeval :=
  { tv_sec := ft.secondsFn, tv_usec := Int.ofNat (ft.nanoseconds / 1000) }

/-- The C `timespec` as built by this crate. -/
structure TimespecC where
  tv_sec : Int
  tv_nsec : Int
deriving DecidableEq

/-- `UTIME_OMIT` (`src/unix/mod.rs` line 96). -/
def UTIME_OMIT : Int := 1073741822

/-- `to_timespec` (`src/unix/mod.rs` lines 95-109): a present timestamp maps
to its seconds/nanos pair and an absent one to the `UTIME_OMIT` sentinel in
the nanoseconds slot. -/
def to_timespec (ft : Option FileTime) : TimespecC :=
  match ft with
  | some ft => { tv_sec := ft.secondsFn, tv_nsec := Int.ofNat ft.nanoseconds }
  | none => { tv_sec := 0, tv_nsec := UTIME_OMIT }

/-- `call_s_helper`'s result logic (`src/unix/mod.rs` lines 32-43): the
closure result is an `io::Result<c_int>`; a closure error propagates, and
otherwise `rc == 0` means success, any other return code yielding
`io::Error::last_os_error()`. -/
def call_s_result (ret : Except IOErr Int) (lastOsError : Nat) : Except IOErr Unit :=
  match ret with
  | .error e => .error e
  | .ok rc => if rc = 0 then .ok () else .error (.os lastOsError)

/-- `call_ns_helper`'s result logic (`src/unix/mod.rs` lines 80-93):
identical shape to `call_s_helper`. -/
def call_ns_result (ret : Except IOErr Int) (lastOsError : Nat) : Except IOErr Unit :=
  match ret with
  | .error e => .error e
  | .ok rc => if rc = 0 then .ok () else .error (.os lastOsError)

end UnixMod

namespace Utimes

/-- `to_timeval` (`src/unix/utimes.rs` lines 86-91): `tv_sec` is
`seconds() as time_t` and `tv_usec` is `(nanoseconds() / 1000) as
suseconds_t` — truncating integer division. -/
def to_timeval (ft : FileTime) : Timeval :=
  { tv_sec := ft.secondsFn, tv_usec := Int.ofNat (ft.nanoseconds / 1000) }

/-- `get_times` (`src/unix/utimes.rs` lines 39-57): `(Some, Some)` passes
both through; `(None, None)` yields no pair at all; a single-sided request
invokes the `current` metadata closure and fills the missing side from the
file's current access or modification time. The returned flag records
whether the `current` closure was invoked. -/
def get_times (atime mtime : Option FileTime) (current : Except IOErr UnixMeta) :
    Except IOErr (Option (FileTime × FileTime)) × Bool :=
  match atime, mtime with
  | some a, some b => (.ok (some (a, b)), false)
  | none, none => (.ok none, false)
  | some a, none =>
    (match current with
     | .error e => (.error e, true)
     | .ok meta => (.ok (some (a, UnixMod.from_last_modification_time meta)), true))
  | none, some b =>
    (match current with
     | .error e => (.error e, true)
     | .ok meta => (.ok (some (UnixMod.from_last_access_time meta, b)), true))

/-- A native call issued by the utimes-based Unix adapter.  `metadataCall`
is the `stat`-equivalent metadata query performed by `get_times`'s closure. -/
inductive UtimesCall where
  | metadataCall : UtimesCall
  | utimes (times : List Timeval) : UtimesCall
  | lutimes (times : List Timeval) : UtimesCall
  | futimes (times : List Timeval) : UtimesCall
deriving DecidableEq

/-- Oracle for the utimes-based Unix adapter: the result of the metadata
query, of the `CString::new` path conversion, the return code of the
`utimes`/`lutimes`/`futimes` syscall and the errno `last_os_error()` would
report after a failing one. -/
structure UtimesEnv where
  metadataRes : Except IOErr UnixMeta
  cstringOk : Bool
  syscallRet : Int
  lastOsError : Nat

/-- `set_times` (`src/unix/utimes.rs` lines 64-84): resolves the option pair
through `get_times` (querying the path's metadata when single-sided),
returns immediately on `(None, None)`, converts the path, builds the timeval
pair and issues `lutimes` or `utimes`, mapping `-1` to
`io::Error::last_os_error()` via `cvt`. -/
def set_times (env : UtimesEnv) (atime mtime : Option FileTime) (symlink : Bool) :
    Outcome IOErr × List UtimesCall :=
  let (gt, fetched) := get_times atime mtime env.metadataRes
  let pre : List UtimesCall := if fetched then [.metadataCall] else []
  match gt with
  | .error e => (.error e, pre)
  | .ok none => (.ok, pre)
  | .ok (some (a, m)) =>
    if env.cstringOk then
      let times := [to_timeval a, to_timeval m]
      let call := if symlink then UtimesCall.lutimes times else UtimesCall.utimes times
      if env.syscallRet = -1 then (.error (.os env.lastOsError), pre ++ [call])
      else (.ok, pre ++ [call])
    else (.error .invalidInput, pre)

/-- `set_file_times` (`src/unix/utimes.rs` lines 10-12). -/
def set_file_times (env : UtimesEnv) (atime mtime : FileTime) :
    Outcome IOErr × List UtimesCall :=
  set_times env (some atime) (some mtime) false

/-- `set_file_mtime` (`src/unix/utimes.rs` lines 15-17). -/
def set_file_mtime (env : UtimesEnv) (mtime : FileTime) :
    Outcome IOErr × List UtimesCall :=
  set_times env none (some mtime) false

/-- `set_file_atime` (`src/unix/utimes.rs` lines 20-22). -/
def set_file_atime (env : UtimesEnv) (atime : FileTime) :
    Outcome IOErr × List UtimesCall :=
  set_times env (some atime) none false

/-- `set_symlink_file_times` (`src/unix/utimes.rs` lines 60-62). -/
def set_symlink_file_times (env : UtimesEnv) (atime mtime : FileTime) :
    Outcome IOErr × List UtimesCall :=
  set_times env (some atime) (some mtime) true

/-- `set_file_handle_times` (`src/unix/utimes.rs` lines 25-37): like
`set_times` but the metadata query is `f.metadata()` on the open handle and
the write is `futimes` on the descriptor. -/
def set_file_handle_times (env : UtimesEnv) (atime mtime : Option FileTime) :
    Outcome IOErr × List UtimesCall :=
  let (gt, fetched) := get_times atime mtime env.metadataRes
  let pre : List UtimesCall := if fetched then [.metadataCall] else []
  match gt with
  | .error e => (.error e, pre)
  | .ok none => (.ok, pre)
  | .ok (some (a, m)) =>
    let times := [to_timeval a, to_timeval m]
    if env.syscallRet = -1 then (.error (.os env.lastOsError), pre ++ [.futimes times])
    else (.ok, pre ++ [.futimes times])

end Utimes

/-- Modelled from the spec: the effect of the microsecond-precision
`utimes`/`lutimes`/`futimes` OS primitive on the target's metadata — the
repository contains only the call sites, not the kernel; per the spec the
pair of timevals becomes the file's new access and modification times, and
a later read reports exactly the written values at microsecond granularity
(nanoseconds equal to `tv_usec * 1000`). -/
def applyTimeval (m : UnixMeta) (times : List Timeval) : UnixMeta :=
  match times with
  | [a, t] =>
    { atime := a.tv_sec, atime_nsec := a.tv_usec * 1000
      mtime := t.tv_sec, mtime_nsec := t.tv_usec * 1000 }
  | _ => m

namespace Linux

/-- The state of the `ADDR: AtomicUsize` cache inside `utimensat()`
(`src/unix/linux.rs` lines 102-120): `0` not yet resolved, `1` symbol
absent, any other value the resolved address. -/
inductive Resolution where
  | unresolved : Resolution
  | absent : Resolution
  | present : Resolution
deriving DecidableEq

/-- The process-wide mutable state of the `set_times` path in
`src/unix/linux.rs`: the `INVALID: AtomicBool` latch (line 80) and the
`ADDR` cache of the `utimensat` symbol resolution (line 103). -/
structure LinuxState where
  invalid : Bool
  utimensatAddr : Resolution
deriving DecidableEq

/-- `utimensat()` (`src/unix/linux.rs` lines 102-120): consult the `ADDR`
cache; on first use perform the `dlsym` lookup (`symPresent` is the oracle
for whether the running libc exports the symbol) and store the outcome,
which is thereafter returned without a new lookup. -/
def resolveUtimensat (st : LinuxState) (symPresent : Bool) : Bool × LinuxState :=
  match st.utimensatAddr with
  | .absent => (false, st)
  | .present => (true, st)
  | .unresolved =>
    if symPresent then (true, { st with utimensatAddr := .present })
    else (false, { st with utimensatAddr := .absent })

/-- Per-call oracle for the Linux adapter: whether `dlsym` would find
`utimensat`, the result of the `call_utimensat` closure (`CString` failure
or the raw return code), the errno `last_os_error()` would then report, and
the same pair for the low-precision `utimes`/`lutimes` closure. -/
structure LinuxCallEnv where
  symPresent : Bool
  utimensatRet : Except IOErr Int
  nsLastOsError : Nat
  utimesRet : Except IOErr Int
  sLastOsError : Nat

/-- A native-primitive attempt made by the Linux adapter. -/
inductive LinuxCall where
  | utimensatAttempt (times : List UnixMod.TimespecC) (flags : Int) : LinuxCall
  | utimesAttempt (times : List Timeval) : LinuxCall
  | lutimesAttempt (times : List Timeval) : LinuxCall
deriving DecidableEq

/-- Whether a call is an attempt of the high-precision primitive. -/
def LinuxCall.isNsAttempt : LinuxCall → Bool
  | .utimensatAttempt _ _ => true
  | _ => false

/-- Linux `AT_SYMLINK_NOFOLLOW`. -/
def AT_SYMLINK_NOFOLLOW : Int := 256

/-- Linux `ENOSYS`. -/
def ENOSYS : Nat := 38

/-- View of an `io::Result<()>` as an `Outcome`. -/
def outcomeOf : Except IOErr Unit → Outcome IOErr
  | .ok _ => .ok
  | .error e => .error e

/-- `super::utimes` (`src/unix/mod.rs` lines 53-65) as invoked from the
fallback branch of `src/unix/linux.rs` lines 94-98 on `atime.unwrap()` and
`mtime.unwrap()`: an absent argument panics in `unwrap`; otherwise the
timeval pair is built by `call_s_helper` and the chosen low-precision
primitive (`lutimes` for the symlink variant, `utimes` otherwise) is
issued. -/
def fallbackUtimes (env : LinuxCallEnv) (atime mtime : Option FileTime)
    (symlink : Bool) : Outcome IOErr × List LinuxCall :=
  match atime, mtime with
  | some a, some m =>
    let times := [UnixMod.to_timeval a, UnixMod.to_timeval m]
    let call := if symlink then LinuxCall.lutimesAttempt times
                else LinuxCall.utimesAttempt times
    (outcomeOf (UnixMod.call_s_result env.utimesRet env.sLastOsError), [call])
  | _, _ => (.panicked "called Option::unwrap on a None value", [])

/-- `set_times` (`src/unix/linux.rs` lines 63-100).  `feature_utimensat`
models `cfg!(feature = "utimensat")`.  With the feature off: while the
`INVALID` latch is clear, resolve `utimensat` and, when present, attempt it;
an error whose `raw_os_error()` is `ENOSYS` stores `true` into the latch and
falls through to the low-precision `utimes`/`lutimes` retry, while every
other outcome (success or a different error) is returned as is.  When the
symbol is absent or the latch is set, the low-precision path is taken
directly. -/
def set_times (feature_utimensat : Bool) (st : LinuxState) (env : LinuxCallEnv)
    (atime mtime : Option FileTime) (symlink : Bool) :
    Outcome IOErr × LinuxState × List LinuxCall :=
  let flags : Int := if symlink then AT_SYMLINK_NOFOLLOW else 0
  let times := [UnixMod.to_timespec atime, UnixMod.to_timespec mtime]
  if feature_utimensat then
    let res := resolveUtimensat st env.symPresent
    if res.1 then
      (outcomeOf (UnixMod.call_ns_result env.utimensatRet env.nsLastOsError), res.2,
        [.utimensatAttempt times flags])
    else
      (.error (.notFound "Version of libc does not support the utimensat syscall"),
        res.2, [])
  else
    if st.invalid = false then
      let res := resolveUtimensat st env.symPresent
      if res.1 then
        match UnixMod.call_ns_result env.utimensatRet env.nsLastOsError with
        | .error e =>
          if IOErr.rawOsError e = some ENOSYS then
            let fb := fallbackUtimes env atime mtime symlink
            (fb.1, { res.2 with invalid := true },
              LinuxCall.utimensatAttempt times flags :: fb.2)
          else
            (.error e, res.2, [.utimensatAttempt times flags])
        | .ok _ => (.ok, res.2, [.utimensatAttempt times flags])
      else
        let fb := fallbackUtimes env atime mtime symlink
        (fb.1, res.2, fb.2)
    else
      let fb := fallbackUtimes env atime mtime symlink
      (fb.1, st, fb.2)

/-- `set_file_times` (`src/unix/linux.rs` lines 15-17). -/
def set_file_times (feature_utimensat : Bool) (st : LinuxState) (env : LinuxCallEnv)
    (atime mtime : Option FileTime) : Outcome IOErr × LinuxState × List LinuxCall :=
  set_times feature_utimensat st env atime mtime false

/-- `set_symlink_file_times` (`src/unix/linux.rs` lines 59-61). -/
def set_symlink_file_times (feature_utimensat : Bool) (st : LinuxState)
    (env : LinuxCallEnv) (atime mtime : Option FileTime) :
    Outcome IOErr × LinuxState × List LinuxCall :=
  set_times feature_utimensat st env atime mtime true

/-- The arguments of one `set_times` call in a process-lifetime sequence. -/
structure CallArgs where
  env : LinuxCallEnv
  atime : Option FileTime
  mtime : Option FileTime
  symlink : Bool

/-- A sequence of `set_times` calls within one process, threading the
process-wide state from call to call and collecting each call's outcome and
trace. -/
def runCalls (feature_utimensat : Bool) (st : LinuxState) :
    List CallArgs → List (Outcome IOErr × List LinuxCall)
  | [] => []
  | c :: rest =>
    let r := set_times feature_utimensat st c.env c.atime c.mtime c.symlink
    (r.1, r.2.2) :: runCalls feature_utimensat r.2.1 rest

end Linux

/-! ### Theorems -/

/-- Characterization of the `u64` comparison: `.lt` exactly below. -/
theorem cmpNat_lt_iff (a b : Nat) : Lib.cmpNat a b = .lt ↔ a < b := by
  unfold Lib.cmpNat
  split_ifs <;> simp_all

/-- Characterization of the `u64` comparison: `.eq` exactly at equality. -/
theorem cmpNat_eq_iff (a b : Nat) : Lib.cmpNat a b = .eq ↔ a = b := by
  unfold Lib.cmpNat
  split_ifs <;> simp_all <;> omega

/-- Characterization of the `u64` comparison: `.gt` exactly above. -/
theorem cmpNat_gt_iff (a b : Nat) : Lib.cmpNat a b = .gt ↔ b < a := by
  unfold Lib.cmpNat
  split_ifs <;> simp_all <;> omega

/-- Lexicographic characterization of the derived `Ord` on the legacy
`FileTime`. -/
theorem cmp_lt_iff (a b : Lib.FileTime) :
    Lib.FileTime.cmp a b = .lt ↔
      a.seconds < b.seconds ∨ (a.seconds = b.seconds ∧ a.nanos < b.nanos) := by
  unfold Lib.FileTime.cmp
  rcases h : Lib.cmpNat a.seconds b.seconds with _ | _ | _ <;>
    simp only [cmpNat_lt_iff, cmpNat_eq_iff, cmpNat_gt_iff] at h <;>
    simp [cmpNat_lt_iff] <;> omega

/-- Equality characterization of the derived `Ord` on the legacy
`FileTime`. -/
theorem cmp_eq_iff (a b : Lib.FileTime) :
    Lib.FileTime.cmp a b = .eq ↔ a = b := by
  obtain ⟨as, an⟩ := a
  obtain ⟨bs, bn⟩ := b
  unfold Lib.FileTime.cmp
  rcases h : Lib.cmpNat as bs with _ | _ | _ <;>
    simp only [cmpNat_lt_iff, cmpNat_eq_iff, cmpNat_gt_iff] at h <;>
    simp_all [Lib.FileTime.mk.injEq, cmpNat_eq_iff] <;> omega

/-- Duality characterization of the derived `Ord` on the legacy
`FileTime`. -/
theorem cmp_gt_iff (a b : Lib.FileTime) :
    Lib.FileTime.cmp a b = .gt ↔
      b.seconds < a.seconds ∨ (b.seconds = a.seconds ∧ b.nanos < a.nanos) := by
  unfold Lib.FileTime.cmp
  rcases h : Lib.cmpNat a.seconds b.seconds with _ | _ | _ <;>
    simp only [cmpNat_lt_iff, cmpNat_eq_iff, cmpNat_gt_iff] at h <;>
    simp [cmpNat_gt_iff] <;> omega

/-- C8: the derived comparison of `FileTime` (`src/lib.rs` line 57) is a
total order comparing `(seconds, nanos)` lexicographically, with structural
equality; in particular whenever `a.seconds < b.seconds` strictly, `a < b`
holds regardless of the `nanos` fields (and hence regardless of which epoch
offset the constructors baked into `seconds`, since comparison reads only
the stored representation). -/
theorem filetime_cmp_total_order (a b c : Lib.FileTime) :
    (Lib.FileTime.cmp a b = .eq ↔ a = b) ∧
    (Lib.FileTime.cmp a b = .lt ↔ Lib.FileTime.cmp b a = .gt) ∧
    (Lib.FileTime.cmp a b = .lt → Lib.FileTime.cmp b c = .lt →
      Lib.FileTime.cmp a c = .lt) ∧
    (Lib.FileTime.cmp a b = .lt ∨ Lib.FileTime.cmp a b = .eq ∨
      Lib.FileTime.cmp a b = .gt) ∧
    (Lib.FileTime.cmp a b = .lt ↔
      a.seconds < b.seconds ∨ (a.seconds = b.seconds ∧ a.nanos < b.nanos)) ∧
    (a.seconds < b.seconds → Lib.FileTime.lt a b) := by
  refine ⟨cmp_eq_iff a b, ?_, ?_, ?_, cmp_lt_iff a b, ?_⟩
  · rw [cmp_lt_iff, cmp_gt_iff]
  · rw [cmp_lt_iff, cmp_lt_iff, cmp_lt_iff]
    omega
  · rcases h : Lib.FileTime.cmp a b with _ | _ | _ <;> simp [h]
  · intro h
    exact (cmp_lt_iff a b).mpr (Or.inl h)

/-- C8 witness: the theorem applied at concrete timestamps with
`a.seconds < b.seconds` and larger `nanos` on the earlier one. -/
theorem filetime_cmp_total_order_witness :
    Lib.FileTime.lt ⟨3, 999999999⟩ ⟨4, 0⟩ :=
  (filetime_cmp_total_order ⟨3, 999999999⟩ ⟨4, 0⟩ ⟨4, 0⟩).2.2.2.2.2 (by decide)

/-- C2 counterexample: `from_seconds_since_1970` performs no normalization
of the nanoseconds argument — passing the valid `u32` value `2_000_000_000`
yields a `FileTime` whose `nanoseconds()` is `2_000_000_000`, not below one
billion. -/
theorem no_nanos_normalization_counterexample :
    (Lib.from_seconds_since_1970 false 0 2000000000).nanoseconds = 2000000000 ∧
    ¬ (Lib.from_seconds_since_1970 false 0 2000000000).nanoseconds < 1000000000 := by
  exact ⟨rfl, by decide⟩

/-- C2 (amended): `from_seconds_since_1970` stores the nanoseconds argument
unchanged — no carry into `seconds` is performed — so `nanoseconds()`
returns exactly the `N` passed in, and is below one billion precisely when
the caller passed `N < 1_000_000_000`. -/
theorem nanos_stored_unchanged (w : Bool) (S N : Nat) (hN : N < 4294967296) :
    (Lib.from_seconds_since_1970 w S N).nanoseconds = N ∧
    ((Lib.from_seconds_since_1970 w S N).nanoseconds < 1000000000 ↔
      N < 1000000000) := by
  exact ⟨rfl, Iff.rfl⟩

/-- C2 witness: applying the amended theorem at an in-range input. -/
theorem nanos_stored_unchanged_witness :
    999999999 < 4294967296 ∧
    ((Lib.from_seconds_since_1970 true 7 999999999).nanoseconds = 999999999 ∧
      ((Lib.from_seconds_since_1970 true 7 999999999).nanoseconds < 1000000000 ↔
        999999999 < 1000000000)) :=
  ⟨by decide, nanos_stored_unchanged true 7 999999999 (by decide)⟩

/-- C5: for every `u64` seconds value `S` and every `N` below one billion,
`from_seconds_since_1970(S, N).seconds_relative_to_1970() == S` on both
epoch families — the Windows offset of 11,644,473,600 seconds added by the
constructor is exactly cancelled by the accessor (u64 wrapping
arithmetic). -/
theorem epoch_rebasing_roundtrip (w : Bool) (S N : Nat)
    (hS : S < Lib.U64MOD) (hN : N < 1000000000) :
    Lib.seconds_relative_to_1970 w (Lib.from_seconds_since_1970 w S N) = S := by
  simp only [Lib.seconds_relative_to_1970, Lib.from_seconds_since_1970,
    Lib.epochOffset, Lib.WINDOWS_EPOCH_OFFSET, Lib.U64MOD] at *
  cases w <;> simp only [if_true, if_false, Bool.false_eq_true] <;> omega

/-- C5 witness: the round trip applied on the Windows epoch at a concrete
timestamp. -/
theorem epoch_rebasing_roundtrip_witness :
    10000 < Lib.U64MOD ∧ 123 < 1000000000 ∧
    Lib.seconds_relative_to_1970 true (Lib.from_seconds_since_1970 true 10000 123) = 10000 :=
  ⟨by decide, by decide, epoch_rebasing_roundtrip true 10000 123 (by decide) (by decide)⟩

/-- C9: on every low-precision write path the microseconds slot is the
nanoseconds component divided by 1000 with truncation — for all three
`to_timeval` copies (`src/unix/mod.rs` lines 45-50, `src/unix/utimes.rs`
lines 86-91, `src/lib.rs` lines 282-287) `tv_usec` equals
`nanoseconds() / 1000` exactly, and this quotient never rounds up:
`1000 * tv_usec ≤ nanos < 1000 * tv_usec + 1000`. -/
theorem timeval_microsecond_truncation (ft : FileTime) (lft : Lib.FileTime) :
    (UnixMod.to_timeval ft).tv_usec = Int.ofNat (ft.nanoseconds / 1000) ∧
    (Utimes.to_timeval ft).tv_usec = Int.ofNat (ft.nanoseconds / 1000) ∧
    (Lib.to_timeval lft).2 = Int.ofNat (lft.nanoseconds / 1000) ∧
    1000 * (ft.nanoseconds / 1000) ≤ ft.nanoseconds ∧
    ft.nanoseconds < 1000 * (ft.nanoseconds / 1000) + 1000 ∧
    1000 * (lft.nanoseconds / 1000) ≤ lft.nanoseconds ∧
    lft.nanoseconds < 1000 * (lft.nanoseconds / 1000) + 1000 := by
  refine ⟨rfl, rfl, rfl, ?_, ?_, ?_, ?_⟩ <;> omega

/-- C10: with both timestamp arguments absent, every optional-timestamp
write operation — both Redox path operations, the Windows symlink
operation, and the utimes-based Unix `set_times` and handle variant —
returns success immediately with an empty native-call trace: nothing is
opened and no timestamp syscall is issued, for every possible oracle. -/
theorem both_none_noop (re : Redox.RedoxEnv) (we : Windows.WinEnv)
    (ue : Utimes.UtimesEnv) (sym : Bool) :
    Redox.set_file_times re none none = (.ok, []) ∧
    Redox.set_symlink_file_times re none none = (.ok, []) ∧
    Windows.set_symlink_file_times we none none = (.ok, []) ∧
    Utimes.set_times ue none none sym = (.ok, []) ∧
    Utimes.set_file_handle_times ue none none = (.ok, []) := by
  refine ⟨rfl, rfl, rfl, rfl, rfl⟩

/-- C3 counterexample: a single-sided request (one `Some`, one `None`) on
the Redox path operations and on the Windows symlink path does not return
an unsupported-operation error value to the caller — the `unimplemented!`
macro panics instead, so no structured error result is ever produced. -/
theorem single_sided_no_error_result :
    ((Redox.set_file_times ⟨Except.ok 3, Except.ok 0, Except.ok 0⟩
        (some ⟨0, 0⟩) none).1.isError = false) ∧
    ((Redox.set_file_times ⟨Except.ok 3, Except.ok 0, Except.ok 0⟩
        (some ⟨0, 0⟩) none).1 =
      .panicked "Must set both atime and mtime on Redox") ∧
    ((Redox.set_symlink_file_times ⟨Except.ok 3, Except.ok 0, Except.ok 0⟩
        none (some ⟨0, 0⟩)).1.isError = false) ∧
    ((Windows.set_symlink_file_times ⟨Except.ok (), 1, 0⟩
        (some ⟨0, 0⟩) none).1.isError = false) ∧
    ((Windows.set_symlink_file_times ⟨Except.ok (), 1, 0⟩
        (some ⟨0, 0⟩) none).1 =
      .panicked "Must set both atime and mtime on Windows") := by
  refine ⟨rfl, rfl, rfl, rfl, rfl⟩

/-- C3 (amended): on Redox (both path-based operations) and on the Windows
symlink path, every request supplying exactly one of atime/mtime is
rejected loudly before any syscall — via an `unimplemented!` panic rather
than a returned error value — with an empty native-call trace, so the
request is never silently approximated or converted into a different
write. -/
theorem single_sided_rejected_loudly (re : Redox.RedoxEnv) (we : Windows.WinEnv)
    (ft : FileTime) :
    Redox.set_file_times re (some ft) none =
      (.panicked "Must set both atime and mtime on Redox", []) ∧
    Redox.set_file_times re none (some ft) =
      (.panicked "Must set both atime and mtime on Redox", []) ∧
    Redox.set_symlink_file_times re (some ft) none =
      (.panicked "Must set both atime and mtime on Redox", []) ∧
    Redox.set_symlink_file_times re none (some ft) =
      (.panicked "Must set both atime and mtime on Redox", []) ∧
    Windows.set_symlink_file_times we (some ft) none =
      (.panicked "Must set both atime and mtime on Windows", []) ∧
    Windows.set_symlink_file_times we none (some ft) =
      (.panicked "Must set both atime and mtime on Windows", []) := by
  refine ⟨rfl, rfl, rfl, rfl, rfl, rfl⟩

/-- C7: in `set_file_times_redox` the descriptor is closed whether the
`futimens` primitive succeeded or failed, and the operation's result is
exactly the primitive's outcome — replacing the close result by any other
value changes nothing, so a failing close never masks the primitive's
success or error. -/
theorem redox_close_released_result_unmasked (env : Redox.RedoxEnv)
    (c : Except Nat Nat) (fd : Nat) (a m : FileTime) :
    Redox.RedoxCall.closeCall fd ∈ (Redox.set_file_times_redox env fd a m).2 ∧
    ((Redox.set_file_times_redox env fd a m).1 =
      match env.futimensRes with
      | .ok _ => Outcome.ok
      | .error errno => Outcome.error errno) ∧
    Redox.set_file_times_redox { env with closeRes := c } fd a m =
      Redox.set_file_times_redox env fd a m := by
  refine ⟨?_, ?_, rfl⟩ <;>
    rcases h : env.futimensRes with _ | _ <;>
    simp [Redox.set_file_times_redox, h]

/-- C6 counterexample: with the file's current access time at 5 s and 1 ns,
`set_file_mtime` issues the pair-write with the access slot truncated to
whole microseconds, so under the spec's model of the microsecond-precision
primitive the resulting access time (5 s, 0 ns) is not equal to its value
immediately before the call. -/
theorem mtime_write_truncates_atime :
    (Utimes.set_file_mtime ⟨Except.ok ⟨5, 1, 7, 0⟩, true, 0, 0⟩ ⟨100, 0⟩).2 =
      [.metadataCall,
       .utimes [Utimes.to_timeval (UnixMod.from_last_access_time ⟨5, 1, 7, 0⟩),
                Utimes.to_timeval ⟨100, 0⟩]] ∧
    (applyTimeval ⟨5, 1, 7, 0⟩
        [Utimes.to_timeval (UnixMod.from_last_access_time ⟨5, 1, 7, 0⟩),
         Utimes.to_timeval ⟨100, 0⟩]).atime_nsec ≠
      (⟨5, 1, 7, 0⟩ : UnixMeta).atime_nsec := by
  refine ⟨rfl, by decide⟩

/-- C6 (amended): on the utimes-based Unix path, `set_file_mtime(path, M)`
fills the missing access time from the target's current metadata before the
pair-write — the unspecified field is preserved rather than zeroed — and
under the spec's model of the microsecond-precision primitive the file's
access time after the call equals its prior value with the sub-microsecond
digits truncated (exactly equal whenever the prior nanoseconds part is a
multiple of 1000). -/
theorem set_file_mtime_fills_atime (env : Utimes.UtimesEnv) (m0 : UnixMeta)
    (M : FileTime) (hmeta : env.metadataRes = .ok m0)
    (hc : env.cstringOk = true) (hs : env.syscallRet ≠ -1) :
    (Utimes.set_file_mtime env M).1 = .ok ∧
    (Utimes.set_file_mtime env M).2 =
      [.metadataCall,
       .utimes [Utimes.to_timeval (UnixMod.from_last_access_time m0),
                Utimes.to_timeval M]] ∧
    (applyTimeval m0
        [Utimes.to_timeval (UnixMod.from_last_access_time m0),
         Utimes.to_timeval M]).atime = m0.atime ∧
    (applyTimeval m0
        [Utimes.to_timeval (UnixMod.from_last_access_time m0),
         Utimes.to_timeval M]).atime_nsec =
      ((u32ofI64 m0.atime_nsec / 1000 * 1000 : Nat) : Int) ∧
    (0 ≤ m0.atime_nsec → m0.atime_nsec < 1000000000 → m0.atime_nsec % 1000 = 0 →
      (applyTimeval m0
          [Utimes.to_timeval (UnixMod.from_last_access_time m0),
           Utimes.to_timeval M]).atime_nsec = m0.atime_nsec) := by
  refine ⟨?_, ?_, ?_, ?_, ?_⟩
  · simp [Utimes.set_file_mtime, Utimes.set_times, Utimes.get_times, hmeta, hc, hs]
  · simp [Utimes.set_file_mtime, Utimes.set_times, Utimes.get_times, hmeta, hc, hs]
  · rfl
  · simp [applyTimeval, Utimes.to_timeval, UnixMod.from_last_access_time,
      FileTime.nanoseconds]
  · intro h1 h2 h3
    simp [applyTimeval, Utimes.to_timeval, UnixMod.from_last_access_time,
      FileTime.nanoseconds, u32ofI64]
    omega

/-- C6 witness: the fill applied at a concrete microsecond-aligned
metadata snapshot. -/
theorem set_file_mtime_fills_atime_witness :
    (Utimes.set_file_mtime ⟨Except.ok ⟨5, 2000, 7, 0⟩, true, 0, 0⟩ ⟨100, 0⟩).1 = .ok :=
  (set_file_mtime_fills_atime ⟨Except.ok ⟨5, 2000, 7, 0⟩, true, 0, 0⟩ ⟨5, 2000, 7, 0⟩
    ⟨100, 0⟩ rfl rfl (by decide)).1

/-- C1: evaluation of the two Windows `from_creation_time` revisions and
the birth-time-less Unix branches.  At a metadata snapshot whose creation
field is 0 ticks and whose access field is 10,000,000 ticks (one second),
the legacy `src/lib.rs` Windows branch returns the access-derived value
(1 s) — a substituted access time, diverging from its own documentation —
while `src/windows.rs` returns the creation-derived value (0 s) as the
claim states; and every Unix target without a birth-time field returns
`None`. -/
theorem creation_time_field_eval :
    Lib.from_creation_time_windows ⟨0, 10000000, 0⟩ =
      some (Lib.from_os_repr_windows (Lib.WinMeta.last_access_time ⟨0, 10000000, 0⟩)) ∧
    Lib.from_creation_time_windows ⟨0, 10000000, 0⟩ ≠
      some (Lib.from_os_repr_windows (Lib.WinMeta.creation_time ⟨0, 10000000, 0⟩)) ∧
    Lib.from_creation_time_windows ⟨0, 10000000, 0⟩ = some ⟨1, 0⟩ ∧
    (∀ m : Windows.WinMeta,
      Windows.from_creation_time m = some (Windows.from_intervals m.creation_time)) ∧
    Windows.from_creation_time ⟨0, 10000000, 0⟩ = some ⟨0, 0⟩ ∧
    (∀ m : UnixMeta, UnixMod.from_creation_time_other m = none) ∧
    Lib.from_creation_time_other () = none ∧
    Redox.from_creation_time () = none := by
  refine ⟨rfl, by decide, by decide, fun _ => rfl, by decide, fun _ => rfl, rfl, rfl⟩

/-- With the `INVALID` latch set, `set_times` (feature off) goes straight to
the low-precision fallback and leaves the process state untouched. -/
theorem linux_set_times_latched (st : Linux.LinuxState) (env : Linux.LinuxCallEnv)
    (atime mtime : Option FileTime) (sym : Bool) (h : st.invalid = true) :
    Linux.set_times false st env atime mtime sym =
      ((Linux.fallbackUtimes env atime mtime sym).1, st,
        (Linux.fallbackUtimes env atime mtime sym).2) := by
  simp [Linux.set_times, h]

/-- The low-precision fallback never attempts the high-precision
primitive. -/
theorem linux_fallback_no_ns (env : Linux.LinuxCallEnv)
    (atime mtime : Option FileTime) (sym : Bool) :
    ∀ call ∈ (Linux.fallbackUtimes env atime mtime sym).2,
      call.isNsAttempt = false := by
  rcases atime with _ | a <;> rcases mtime with _ | m <;> cases sym <;>
    simp [Linux.fallbackUtimes, Linux.LinuxCall.isNsAttempt]

/-- Once the latch is set, every later call in the process-lifetime
sequence stays on the low-precision path. -/
theorem linux_runCalls_latched (calls : List Linux.CallArgs) :
    ∀ st : Linux.LinuxState, st.invalid = true →
      ∀ rt ∈ Linux.runCalls false st calls, ∀ call ∈ rt.2,
        call.isNsAttempt = false := by
  induction calls with
  | nil =>
    intro st h rt hrt
    simp [Linux.runCalls] at hrt
  | cons c rest ih =>
    intro st h rt hrt
    rw [Linux.runCalls, linux_set_times_latched st c.env c.atime c.mtime c.symlink h]
      at hrt
    rcases List.mem_cons.mp hrt with h1 | h2
    · subst h1
      exact linux_fallback_no_ns c.env c.atime c.mtime c.symlink
    · exact ih st h rt h2

/-- C4: in the Linux write path with the `utimensat` feature off — (1) when
the latch is clear, the symbol resolves and the high-precision call comes
back with `ENOSYS`, the latch is set, the same call is immediately retried
with the low-precision `utimes`/`lutimes` primitive and its outcome is
returned; (2) whenever the latch is already set, the call takes the
low-precision path without any high-precision attempt and leaves the state
unchanged, so the latch never transitions back; (3) once the latch is set,
every subsequent call of the process-lifetime sequence makes no
high-precision attempt. -/
theorem linux_enosys_latch_and_fallback (st : Linux.LinuxState)
    (env : Linux.LinuxCallEnv) (a m : FileTime) (sym : Bool)
    (calls : List Linux.CallArgs) :
    (st.invalid = false →
     (Linux.resolveUtimensat st env.symPresent).1 = true →
     UnixMod.call_ns_result env.utimensatRet env.nsLastOsError =
       .error (.os Linux.ENOSYS) →
     (Linux.set_times false st env (some a) (some m) sym).2.1.invalid = true ∧
     (Linux.set_times false st env (some a) (some m) sym).2.2 =
       [Linux.LinuxCall.utimensatAttempt
          [UnixMod.to_timespec (some a), UnixMod.to_timespec (some m)]
          (if sym then Linux.AT_SYMLINK_NOFOLLOW else 0),
        if sym then
          Linux.LinuxCall.lutimesAttempt [UnixMod.to_timeval a, UnixMod.to_timeval m]
        else
          Linux.LinuxCall.utimesAttempt [UnixMod.to_timeval a, UnixMod.to_timeval m]] ∧
     (Linux.set_times false st env (some a) (some m) sym).1 =
       Linux.outcomeOf (UnixMod.call_s_result env.utimesRet env.sLastOsError)) ∧
    (st.invalid = true →
     (Linux.set_times false st env (some a) (some m) sym).2.1 = st ∧
     (∀ call ∈ (Linux.set_times false st env (some a) (some m) sym).2.2,
        call.isNsAttempt = false) ∧
     (Linux.set_times false st env (some a) (some m) sym).1 =
       Linux.outcomeOf (UnixMod.call_s_result env.utimesRet env.sLastOsError)) ∧
    (st.invalid = true →
     (Linux.set_times false st env (some a) (some m) sym).2.1.invalid = true) ∧
    (st.invalid = true →
     ∀ rt ∈ Linux.runCalls false st calls, ∀ call ∈ rt.2,
       call.isNsAttempt = false) := by
  refine ⟨?_, ?_, ?_, ?_⟩
  · intro h1 h2 h3
    refine ⟨?_, ?_, ?_⟩ <;>
      simp [Linux.set_times, Linux.fallbackUtimes, h1, h2, h3, IOErr.rawOsError]
  · intro h
    rw [linux_set_times_latched st env (some a) (some m) sym h]
    refine ⟨rfl, ?_, ?_⟩
    · exact linux_fallback_no_ns env (some a) (some m) sym
    · simp [Linux.fallbackUtimes]
  · intro h
    rw [linux_set_times_latched st env (some a) (some m) sym h]
    exact h
  · intro h
    exact linux_runCalls_latched calls st h

/-- C4 witness: the ENOSYS latch taken at a concrete state and oracle (the
symbol resolves, the kernel answers with error code 38, the low-precision
retry succeeds). -/
theorem linux_enosys_latch_witness :
    (Linux.set_times false ⟨false, .unresolved⟩
      ⟨true, Except.ok 5, 38, Except.ok 0, 0⟩
      (some ⟨0, 0⟩) (some ⟨0, 0⟩) false).2.1.invalid = true :=
  ((linux_enosys_latch_and_fallback ⟨false, .unresolved⟩
      ⟨true, Except.ok 5, 38, Except.ok 0, 0⟩
      ⟨0, 0⟩ ⟨0, 0⟩ false []).1 rfl rfl rfl).1
